import Mathlib

/-!
Verification of the resilience layer of the photo-api repository:
the circuit breaker (src/app/utils/circuit_breaker.py), the retry
wrapper (src/app/utils/retry.py) and the single-flight credential
cache (src/app/services/nhn_object_storage.py).

Times are modelled as rationals (seconds, as produced by time.time and
datetime.utcnow).  Python truthiness is modelled explicitly where the
source relies on it (None / empty string / 0.0 are falsy).
-/

namespace PhotoApi

/-! ## Circuit breaker (src/app/utils/circuit_breaker.py)

The mutable fields of the CircuitBreaker object are embedded as a
structure; the Prometheus counter circuit_breaker_state_transitions_total
is embedded as a ghost list recording each (from_state, to_state)
increment, so "exactly one transition" claims can be stated.
All state changes happen inside the object's asyncio lock, so the
methods are embedded as pure state transformers. -/

inductive CircuitState where
  | CLOSED
  | OPEN
  | HALF_OPEN
deriving DecidableEq, Repr

structure CircuitBreaker where
  failure_threshold : Nat
  success_threshold : Nat
  timeout : ℚ
  state : CircuitState
  failure_count : Nat
  success_count : Nat
  last_failure_time : Option ℚ
  transitions : List (CircuitState × CircuitState)
deriving DecidableEq, Repr

/-- Truthiness of the Python float Optional last_failure_time:
None and 0.0 are falsy. -/
def floatTruthy : Option ℚ → Bool
  | none => false
  | some t => t ≠ 0

/-- CircuitBreaker._check_and_transition (lines 173-196): while OPEN, if
last_failure_time is truthy and now - last_failure_time >= timeout,
transition to HALF_OPEN and reset both counters. -/
def checkAndTransition (b : CircuitBreaker) (now : ℚ) : CircuitBreaker :=
  if b.state = CircuitState.OPEN then
    match b.last_failure_time with
    | some t =>
        if t ≠ 0 ∧ b.timeout ≤ now - t then
          { b with state := CircuitState.HALF_OPEN
                 , success_count := 0
                 , failure_count := 0
                 , transitions :=
                     b.transitions ++ [(CircuitState.OPEN, CircuitState.HALF_OPEN)] }
        else b
    | none => b
  else b

/-- CircuitBreaker._on_success (lines 198-222). -/
def onSuccess (b : CircuitBreaker) : CircuitBreaker :=
  if b.state = CircuitState.HALF_OPEN then
    let b1 := { b with success_count := b.success_count + 1 }
    if b1.success_threshold ≤ b1.success_count then
      { b1 with state := CircuitState.CLOSED
              , failure_count := 0
              , success_count := 0
              , transitions :=
                  b1.transitions ++ [(CircuitState.HALF_OPEN, CircuitState.CLOSED)] }
    else b1
  else if b.state = CircuitState.CLOSED then
    { b with failure_count := 0 }
  else b

/-- CircuitBreaker._on_failure (lines 224-273): increment failure_count,
record last_failure_time := now, then transition HALF_OPEN -> OPEN on any
failure, or CLOSED -> OPEN once failure_count reaches failure_threshold. -/
def onFailure (b : CircuitBreaker) (now : ℚ) : CircuitBreaker :=
  let b1 := { b with failure_count := b.failure_count + 1
                   , last_failure_time := some now }
  if b1.state = CircuitState.HALF_OPEN then
    { b1 with state := CircuitState.OPEN
            , transitions :=
                b1.transitions ++ [(CircuitState.HALF_OPEN, CircuitState.OPEN)] }
  else if b1.state = CircuitState.CLOSED then
    if b1.failure_threshold ≤ b1.failure_count then
      { b1 with state := CircuitState.OPEN
              , transitions :=
                  b1.transitions ++ [(CircuitState.CLOSED, CircuitState.OPEN)] }
    else b1
  else b1

inductive CallResult (α ε : Type) where
  | rejected
  | ok (a : α)
  | failed (e : ε)
deriving DecidableEq, Repr

/-- CircuitBreaker.call (lines 105-171).  The outcome of the wrapped
operation (were it invoked) is the parameter op; now is the clock at the
_check_and_transition read, nowF the clock at a failure record.  Returns
the new breaker, the call result, and whether the operation was invoked. -/
def call {α ε : Type} (b : CircuitBreaker) (now : ℚ) (op : Except ε α)
    (nowF : ℚ) : CircuitBreaker × CallResult α ε × Bool :=
  let b1 := checkAndTransition b now
  if b1.state = CircuitState.OPEN then
    (b1, CallResult.rejected, false)
  else
    match op with
    | Except.ok a => (onSuccess b1, CallResult.ok a, true)
    | Except.error e => (onFailure b1 nowF, CallResult.failed e, true)

/-- A sequence of k counted failures (calls reaching _on_failure), the
i-th recorded at time t i. -/
def applyFailuresAt (b : CircuitBreaker) (t : Nat → ℚ) : Nat → CircuitBreaker
  | 0 => b
  | k + 1 => applyFailuresAt (onFailure b (t 0)) (fun i => t (i + 1)) k

/-- n consecutive counted successes (calls reaching _on_success). -/
def applySuccesses (b : CircuitBreaker) : Nat → CircuitBreaker
  | 0 => b
  | n + 1 => onSuccess (applySuccesses b n)

/-! ## Retry wrapper (src/app/utils/retry.py, retry_with_backoff)

The wrapped operation is embedded as a function from the 0-based attempt
index to that attempt's outcome (a return value, or an exception tagged
with whether it matches retryable_exceptions).  random.random() values
are a function from the attempt index to a rational in [0, 1).  The run
returns the final result, the number of invocations of the operation,
and the list of slept delays. -/

/-- Backoff base delay (retry.py lines 80-83):
min(initial_delay * exponential_base ** attempt, max_delay). -/
def baseDelay (initial_delay max_delay exponential_base : ℚ)
    (attempt : Nat) : ℚ :=
  min (initial_delay * exponential_base ^ attempt) max_delay

/-- Jitter application (retry.py lines 86-87):
if jitter, delay = delay * (0.5 + random.random() * 0.5). -/
def jitteredDelay (jitter : Bool) (delay r : ℚ) : ℚ :=
  if jitter then delay * (1/2 + r * (1/2)) else delay

inductive AttemptOutcome (α ε : Type) where
  | ok (a : α)
  | exc (e : ε) (retryable : Bool)

inductive RetryResult (α ε : Type) where
  | ok (a : α)
  | exc (e : ε)
  | logicError
deriving DecidableEq, Repr

/-- The for-loop of retry_with_backoff (lines 51-108).  fuel is the
number of iterations range(max_attempts) still has; att the current
attempt index; lastE models the last_exception variable.  When the loop
body runs: a return value returns it; a non-retryable exception
propagates uncaught; a retryable exception on the last attempt (attempt
== max_attempts - 1, i.e. fuel = 1) is re-raised unchanged; otherwise
the computed delay is slept and the loop continues.  Falling out of the
loop re-raises last_exception if set, else raises RuntimeError
("Retry logic error"), modelled as RetryResult.logicError. -/
def retryLoop {α ε : Type} (ops : Nat → AttemptOutcome α ε) (jitter : Bool)
    (initial_delay max_delay exponential_base : ℚ) (rand : Nat → ℚ) :
    Nat → Nat → Option ε → RetryResult α ε × Nat × List ℚ
  | _, 0, none => (RetryResult.logicError, 0, [])
  | _, 0, some e => (RetryResult.exc e, 0, [])
  | att, fuel + 1, _ =>
    match ops att with
    | AttemptOutcome.ok a => (RetryResult.ok a, 1, [])
    | AttemptOutcome.exc e retryable =>
        if retryable then
          if fuel = 0 then (RetryResult.exc e, 1, [])
          else
            let d := jitteredDelay jitter
              (baseDelay initial_delay max_delay exponential_base att) (rand att)
            let rest := retryLoop ops jitter initial_delay max_delay
              exponential_base rand (att + 1) fuel (some e)
            (rest.1, rest.2.1 + 1, d :: rest.2.2)
        else (RetryResult.exc e, 1, [])

/-- retry_with_backoff (retry.py lines 17-108): run the loop from
attempt 0 with max_attempts iterations and last_exception = None. -/
def retry_with_backoff {α ε : Type} (ops : Nat → AttemptOutcome α ε)
    (max_attempts : Nat) (jitter : Bool)
    (initial_delay max_delay exponential_base : ℚ) (rand : Nat → ℚ) :
    RetryResult α ε × Nat × List ℚ :=
  retryLoop ops jitter initial_delay max_delay exponential_base rand
    0 max_attempts none

/-! ## Credential cache (src/app/services/nhn_object_storage.py)

The cached credential is the quadruple of the _token, _token_expires,
_account and _storage_url fields.  The external authentication
interaction (the HTTP POST of _get_auth_token and the parse of its
response) is embedded as an AuthOutcome value describing what the
endpoint did; the locked section of _get_auth_token is a pure function
of the cache state, the clock and that outcome.  Times are rational
seconds; the 5-minute refresh margin is 300 and the 24-hour fallback
lifetime is 86400. -/

/-- Truthiness of an Optional string: None and the empty string are
falsy. -/
def strTruthy : Option String → Bool
  | none => false
  | some s => s ≠ ""

/-- Python's `a or b` on Optional strings, as used for the credential
setting fallbacks. -/
def orElseStr : Option String → Option String → Option String
  | none, b => b
  | some s, b => if s = "" then b else some s

/-- The settings fields _get_auth_token reads (src/app/config.py via
get_settings). -/
structure StorageSettings where
  nhn_storage_iam_user : Option String
  nhn_storage_username : Option String
  nhn_storage_iam_password : Option String
  nhn_storage_password : Option String
  nhn_storage_tenant_id : Option String
  nhn_storage_project_id : Option String
  nhn_storage_url : String
deriving DecidableEq, Repr

/-- The mutable cached-credential fields of NHNObjectStorageService. -/
structure CacheState where
  token : Option String
  expires : Option ℚ
  account : Option String
  storage_url : Option String
deriving DecidableEq, Repr

/-- The validity check of _get_auth_token (lines 60-64 and 70-74):
self._token and self._token_expires are truthy and
utcnow() < self._token_expires - timedelta(minutes=5). -/
def usableB (s : CacheState) (now : ℚ) : Bool :=
  strTruthy s.token &&
    match s.expires with
    | none => false
    | some e => decide (now < e - 300)

/-- What the authentication endpoint interaction did, as seen after the
HTTP exchange of lines 106-130: a network-level error (httpx.HTTPError),
an unparseable body (response.json() raised), or a parsed response with
its status code, optional token id (access.token.id), optional expiry
field (none when absent, some none when present but unparseable by
datetime.fromisoformat, some (some e) when it parses to time e) and
optional tenant id (access.token.tenant.id). -/
inductive AuthOutcome where
  | netError
  | parseFailure (status : Nat)
  | response (status : Nat) (tokenId : Option String)
      (expiresField : Option (Option ℚ)) (tenantId : Option String)
deriving DecidableEq, Repr

/-- The exceptions _get_auth_token can raise, one per raise site. -/
inductive AuthError where
  | configError
  | networkError
  | parseError
  | authFailed
  | tokenError
  | expiryParseError
  | tenantError
deriving DecidableEq, Repr

/-- Line 80 of _get_auth_token: iam_user = settings.nhn_storage_iam_user
or settings.nhn_storage_username. -/
def iamUserOf (cfg : StorageSettings) : Option String :=
  orElseStr cfg.nhn_storage_iam_user cfg.nhn_storage_username

/-- Line 81: iam_password = settings.nhn_storage_iam_password or
settings.nhn_storage_password. -/
def iamPasswordOf (cfg : StorageSettings) : Option String :=
  orElseStr cfg.nhn_storage_iam_password cfg.nhn_storage_password

/-- Line 82: tenant_id = settings.nhn_storage_tenant_id or
settings.nhn_storage_project_id. -/
def tenantIdOf (cfg : StorageSettings) : Option String :=
  orElseStr cfg.nhn_storage_tenant_id cfg.nhn_storage_project_id

/-- Line 84: the credential-presence check — iam_user, iam_password and
tenant_id are all truthy (the raise there fires on its negation). -/
def credsOk (cfg : StorageSettings) : Bool :=
  strTruthy (iamUserOf cfg) && strTruthy (iamPasswordOf cfg) &&
    strTruthy (tenantIdOf cfg)

/-- Lines 183-213 of _get_auth_token: record the expiry, resolve the
tenant id (response value, falling back to the settings value), set
_account and _storage_url, and return the token.  (The source raises
when the resolved tenant id is falsy; that branch is written second
here, which is equivalent.) -/
def authFinish (cfg : StorageSettings) (s1 : CacheState) (e : ℚ)
    (tokenId : Option String) (tenantField tenantCfg : Option String) :
    CacheState × Except AuthError String × Bool :=
  let s2 := { s1 with expires := some e }
  let tid := orElseStr tenantField tenantCfg
  if strTruthy tid then
    ({ s2 with account := some ("AUTH_" ++ tid.getD "")
             , storage_url := some cfg.nhn_storage_url },
     Except.ok (tokenId.getD ""), true)
  else (s2, Except.error AuthError.tenantError, true)

/-- The authentication attempt of _get_auth_token's locked section after
a failed double-check (lines 77-249), as a pure function of the current
cache state, the clock and the endpoint outcome.  Returns the new cache
state, the result (the token, or the raised exception), and whether the
authentication HTTP request was performed.  Each negated source check
(lines 84, 133, 168) is written with its branches swapped, which is
equivalent.  Field assignments are modelled in source order: self._token
is assigned (line 167) before the token is checked, so the token-missing
raise (line 177) leaves the clobbered token behind; self._token_expires
(lines 183-188) is assigned before the tenant check. -/
def authAttempt (cfg : StorageSettings) (s : CacheState) (now : ℚ)
    (out : AuthOutcome) : CacheState × Except AuthError String × Bool :=
  if credsOk cfg then
    match out with
    | AuthOutcome.netError => (s, Except.error AuthError.networkError, true)
    | AuthOutcome.parseFailure _ => (s, Except.error AuthError.parseError, true)
    | AuthOutcome.response status tokenId expiresField tenantField =>
        if status = 200 then
          let s1 := { s with token := tokenId }
          if strTruthy tokenId then
            match expiresField with
            | some none => (s1, Except.error AuthError.expiryParseError, true)
            | some (some e) =>
                authFinish cfg s1 e tokenId tenantField (tenantIdOf cfg)
            | none =>
                authFinish cfg s1 (now + 86400) tokenId tenantField
                  (tenantIdOf cfg)
          else (s1, Except.error AuthError.tokenError, true)
        else (s, Except.error AuthError.authFailed, true)
  else (s, Except.error AuthError.configError, false)

/-- One caller's execution of the locked section of _get_auth_token
(lines 68-249): the double-check (lines 70-75) returns the cached token
when usable; otherwise the authentication attempt runs.  The Bool flags
whether the authentication request was performed. -/
def getTokenLocked (cfg : StorageSettings) (s : CacheState) (now : ℚ)
    (out : AuthOutcome) : CacheState × Except AuthError String × Bool :=
  if usableB s now then (s, Except.ok (s.token.getD ""), false)
  else authAttempt cfg s now out

/-- n concurrent callers of _get_auth_token, all past the lock-free fast
path (no usable token existed when they arrived), executing their locked
sections one after the other in queue order — the asyncio lock
serializes them on the single-threaded event loop.  Each caller sees the
same endpoint behaviour out and clock now.  Returns the final cache
state, each caller's result in order, and the total number of
authentication requests performed. -/
def serveCallers (cfg : StorageSettings) (now : ℚ) (out : AuthOutcome) :
    Nat → CacheState → CacheState × List (Except AuthError String) × Nat
  | 0, s => (s, [], 0)
  | n + 1, s =>
      let step := getTokenLocked cfg s now out
      let rest := serveCallers cfg now out n step.1
      (rest.1, step.2.1 :: rest.2.1,
        (if step.2.2 then 1 else 0) + rest.2.2)

/-- A concrete, fully configured settings value (IAM user, password and
tenant id present). -/
def cfgEx : StorageSettings :=
  ⟨some "u", none, some "p", none, some "t", none, "https://storage"⟩

/-- A concrete cache state holding a stale credential: its token expired
at time 1000 (so it is unusable at time 2000). -/
def s0Ex : CacheState :=
  ⟨some "oldtok", some 1000, some "AUTH_t", some "https://storage"⟩

/-! ## Circuit breaker lemmas -/

lemma onFailure_open (b : CircuitBreaker) (t : ℚ)
    (h : b.state = CircuitState.OPEN) :
    onFailure b t =
      { b with failure_count := b.failure_count + 1
             , last_failure_time := some t } := by
  simp [onFailure, h]

lemma onFailure_closed_below (b : CircuitBreaker) (t : ℚ)
    (h : b.state = CircuitState.CLOSED)
    (hlt : b.failure_count + 1 < b.failure_threshold) :
    onFailure b t =
      { b with failure_count := b.failure_count + 1
             , last_failure_time := some t } := by
  simp [onFailure, h]
  omega

lemma onFailure_closed_reach (b : CircuitBreaker) (t : ℚ)
    (h : b.state = CircuitState.CLOSED)
    (hge : b.failure_threshold ≤ b.failure_count + 1) :
    onFailure b t =
      { b with state := CircuitState.OPEN
             , failure_count := b.failure_count + 1
             , last_failure_time := some t
             , transitions :=
                 b.transitions ++ [(CircuitState.CLOSED, CircuitState.OPEN)] } := by
  simp [onFailure, h, hge]

lemma onFailure_half_open (b : CircuitBreaker) (t : ℚ)
    (h : b.state = CircuitState.HALF_OPEN) :
    onFailure b t =
      { b with state := CircuitState.OPEN
             , failure_count := b.failure_count + 1
             , last_failure_time := some t
             , transitions :=
                 b.transitions ++ [(CircuitState.HALF_OPEN, CircuitState.OPEN)] } := by
  simp [onFailure, h]

/-- While OPEN, further counted failures keep the breaker OPEN, emit no
transition, keep the configuration and update last_failure_time. -/
lemma applyFailuresAt_open (k : Nat) :
    ∀ (b : CircuitBreaker) (t : Nat → ℚ), b.state = CircuitState.OPEN →
      (applyFailuresAt b t k).state = CircuitState.OPEN ∧
      (applyFailuresAt b t k).transitions = b.transitions ∧
      (applyFailuresAt b t k).timeout = b.timeout ∧
      (applyFailuresAt b t k).last_failure_time =
        (if k = 0 then b.last_failure_time else some (t (k - 1))) := by
  induction k with
  | zero => intro b t h; simp [applyFailuresAt, h]
  | succ k ih =>
      intro b t h
      have e1 : (onFailure b (t 0)).state = CircuitState.OPEN := by
        rw [onFailure_open b (t 0) h]; exact h
      have e2 : (onFailure b (t 0)).transitions = b.transitions := by
        rw [onFailure_open b (t 0) h]
      have e3 : (onFailure b (t 0)).timeout = b.timeout := by
        rw [onFailure_open b (t 0) h]
      have e4 : (onFailure b (t 0)).last_failure_time = some (t 0) := by
        rw [onFailure_open b (t 0) h]
      obtain ⟨h1, h2, h3, h4⟩ := ih (onFailure b (t 0)) (fun i => t (i + 1)) e1
      refine ⟨?_, ?_, ?_, ?_⟩ <;> simp only [applyFailuresAt]
      · exact h1
      · rw [h2, e2]
      · rw [h3, e3]
      · rw [h4]
        rcases Nat.eq_zero_or_pos k with hk | hk
        · simp [hk, e4]
        · have hk0 : k ≠ 0 := by omega
          simp only [hk0, if_false, Nat.succ_ne_zero, Nat.add_sub_cancel]
          congr 2
          omega

/-- From CLOSED with failure_count below the threshold, a sequence of
counted failures long enough to reach the threshold leaves the breaker
OPEN, having emitted exactly one CLOSED -> OPEN transition, with
last_failure_time the time of the last failure and the configuration
unchanged. -/
lemma applyFailuresAt_closed_to_open (k : Nat) :
    ∀ (b : CircuitBreaker) (t : Nat → ℚ), b.state = CircuitState.CLOSED →
      b.failure_threshold ≤ b.failure_count + k →
      b.failure_count < b.failure_threshold →
      (applyFailuresAt b t k).state = CircuitState.OPEN ∧
      (applyFailuresAt b t k).transitions =
        b.transitions ++ [(CircuitState.CLOSED, CircuitState.OPEN)] ∧
      (applyFailuresAt b t k).timeout = b.timeout ∧
      (applyFailuresAt b t k).last_failure_time = some (t (k - 1)) := by
  induction k with
  | zero => intro b t _ hge hlt; omega
  | succ k ih =>
      intro b t hst hge hlt
      rcases Nat.lt_or_ge (b.failure_count + 1) b.failure_threshold with hbelow | hreach
      · have hstep := onFailure_closed_below b (t 0) hst hbelow
        have e1 : (onFailure b (t 0)).state = CircuitState.CLOSED := by
          rw [hstep]; exact hst
        have e2 : (onFailure b (t 0)).transitions = b.transitions := by
          rw [hstep]
        have e3 : (onFailure b (t 0)).timeout = b.timeout := by
          rw [hstep]
        have e5 : (onFailure b (t 0)).failure_count = b.failure_count + 1 := by
          rw [hstep]
        have e6 : (onFailure b (t 0)).failure_threshold = b.failure_threshold := by
          rw [hstep]
        obtain ⟨h1, h2, h3, h4⟩ :=
          ih (onFailure b (t 0)) (fun i => t (i + 1)) e1
            (by rw [e5, e6]; omega) (by rw [e5, e6]; omega)
        refine ⟨?_, ?_, ?_, ?_⟩ <;> simp only [applyFailuresAt]
        · exact h1
        · rw [h2, e2]
        · rw [h3, e3]
        · rw [h4]
          have hk1 : 1 ≤ k := by omega
          congr 2
          omega
      · have hstep := onFailure_closed_reach b (t 0) hst hreach
        have e1 : (onFailure b (t 0)).state = CircuitState.OPEN := by
          rw [hstep]
        have e2 : (onFailure b (t 0)).transitions =
            b.transitions ++ [(CircuitState.CLOSED, CircuitState.OPEN)] := by
          rw [hstep]
        have e3 : (onFailure b (t 0)).timeout = b.timeout := by
          rw [hstep]
        have e4 : (onFailure b (t 0)).last_failure_time = some (t 0) := by
          rw [hstep]
        obtain ⟨h1, h2, h3, h4⟩ :=
          applyFailuresAt_open k (onFailure b (t 0)) (fun i => t (i + 1)) e1
        refine ⟨?_, ?_, ?_, ?_⟩ <;> simp only [applyFailuresAt]
        · exact h1
        · rw [h2, e2]
        · rw [h3, e3]
        · rw [h4]
          rcases Nat.eq_zero_or_pos k with hk | hk
          · simp [hk, e4]
          · have hk0 : k ≠ 0 := by omega
            simp only [hk0, if_false]
            congr 2
            omega

/-- An OPEN breaker whose cooldown has not yet elapsed rejects the call:
the operation is not invoked and the breaker is unchanged. -/
lemma call_rejected_before_cooldown {α ε : Type} (b : CircuitBreaker)
    (tl now nowF : ℚ) (op : Except ε α)
    (hst : b.state = CircuitState.OPEN)
    (hlft : b.last_failure_time = some tl)
    (hcd : now - tl < b.timeout) :
    call b now op nowF = (b, CallResult.rejected, false) := by
  have hcond : ¬(tl ≠ 0 ∧ b.timeout ≤ now - tl) := by
    rintro ⟨-, hle⟩
    linarith
  have hb1 : checkAndTransition b now = b := by
    rw [checkAndTransition]
    simp only [hst, if_true, hlft, if_neg hcond]
  simp [call, hb1, hst]

/-- While HALF_OPEN with the success total still below the threshold,
counted successes stay HALF_OPEN, only incrementing success_count. -/
lemma applySuccesses_half_open (b : CircuitBreaker) :
    ∀ k : Nat, b.state = CircuitState.HALF_OPEN →
      b.success_count + k < b.success_threshold →
      (applySuccesses b k).state = CircuitState.HALF_OPEN ∧
      (applySuccesses b k).success_count = b.success_count + k ∧
      (applySuccesses b k).success_threshold = b.success_threshold := by
  intro k
  induction k with
  | zero => intro h _; simp [applySuccesses, h]
  | succ k ih =>
      intro h hlt
      obtain ⟨h1, h2, h3⟩ := ih h (by omega)
      have hcnt : ¬((applySuccesses b k).success_threshold ≤
          (applySuccesses b k).success_count + 1) := by
        rw [h2, h3]; omega
      refine ⟨?_, ?_, ?_⟩ <;>
        simp only [applySuccesses, onSuccess, h1, if_true, reduceIte, if_neg hcnt] <;>
        simp [h2, h3] <;> try omega

/-- Claim C2 — while CLOSED, any sequence of at least failure_threshold
consecutive counted failures (recorded at times t 0, t 1, ...) produces
exactly one transition, CLOSED -> OPEN, and every subsequent call made
before the cooldown elapses (relative to the last recorded failure)
returns CircuitBreakerOpenError without invoking the wrapped operation
and without changing the breaker. -/
theorem claim_C2_closed_failures_open_once {α ε : Type} (b : CircuitBreaker)
    (t : Nat → ℚ) (k : Nat)
    (hstate : b.state = CircuitState.CLOSED)
    (hfc : b.failure_count = 0)
    (htr : b.transitions = [])
    (hthr : 1 ≤ b.failure_threshold)
    (hk : b.failure_threshold ≤ k) :
    (applyFailuresAt b t k).state = CircuitState.OPEN ∧
    (applyFailuresAt b t k).transitions =
      [(CircuitState.CLOSED, CircuitState.OPEN)] ∧
    ∀ (now nowF : ℚ) (op : Except ε α), now - t (k - 1) < b.timeout →
      call (applyFailuresAt b t k) now op nowF =
        (applyFailuresAt b t k, CallResult.rejected, false) := by
  obtain ⟨h1, h2, h3, h4⟩ :=
    applyFailuresAt_closed_to_open k b t hstate (by omega) (by omega)
  refine ⟨h1, by rw [h2, htr]; simp, ?_⟩
  intro now nowF op hcd
  exact call_rejected_before_cooldown _ (t (k - 1)) now nowF op h1 h4
    (by rw [h3]; exact hcd)

/-- Witness for claim C2 at a concrete breaker (threshold 3) and 3
failures at times 10, 20, 30, probed at time 50 (cooldown 60). -/
theorem claim_C2_witness :
    (applyFailuresAt ⟨3, 2, 60, CircuitState.CLOSED, 0, 0, none, []⟩
        (fun i => 10 * (i + 1 : ℚ)) 3).state = CircuitState.OPEN ∧
    (applyFailuresAt ⟨3, 2, 60, CircuitState.CLOSED, 0, 0, none, []⟩
        (fun i => 10 * (i + 1 : ℚ)) 3).transitions =
      [(CircuitState.CLOSED, CircuitState.OPEN)] ∧
    ∀ (now nowF : ℚ) (op : Except Unit Nat), now - 10 * 3 < (60 : ℚ) →
      call (applyFailuresAt ⟨3, 2, 60, CircuitState.CLOSED, 0, 0, none, []⟩
          (fun i => 10 * (i + 1 : ℚ)) 3) now op nowF =
        (applyFailuresAt ⟨3, 2, 60, CircuitState.CLOSED, 0, 0, none, []⟩
          (fun i => 10 * (i + 1 : ℚ)) 3, CallResult.rejected, false) := by
  have h := claim_C2_closed_failures_open_once (α := Nat) (ε := Unit)
    ⟨3, 2, 60, CircuitState.CLOSED, 0, 0, none, []⟩
    (fun i => 10 * (i + 1 : ℚ)) 3 rfl rfl rfl (by norm_num) (by norm_num)
  refine ⟨h.1, h.2.1, ?_⟩
  intro now nowF op hcd
  exact h.2.2 now nowF op (by norm_num at hcd ⊢; linarith)

/-- Claim C4 — an OPEN breaker whose cooldown has elapsed relative to
the recorded last failure time transitions to HALF_OPEN on the next
call, resets both counters to 0, and that same invocation runs the
wrapped operation (it is not rejected), its outcome being processed
under the HALF_OPEN rules. -/
theorem claim_C4_cooldown_half_open {α ε : Type} (b : CircuitBreaker)
    (tl now nowF : ℚ) (op : Except ε α)
    (hst : b.state = CircuitState.OPEN)
    (hlft : b.last_failure_time = some tl)
    (htl : tl ≠ 0)
    (hcd : b.timeout ≤ now - tl) :
    (checkAndTransition b now).state = CircuitState.HALF_OPEN ∧
    (checkAndTransition b now).failure_count = 0 ∧
    (checkAndTransition b now).success_count = 0 ∧
    (call b now op nowF).2.2 = true ∧
    (call b now op nowF).1 =
      (match op with
       | Except.ok _ => onSuccess (checkAndTransition b now)
       | Except.error _ => onFailure (checkAndTransition b now) nowF) := by
  have hb1 : checkAndTransition b now =
      { b with state := CircuitState.HALF_OPEN
             , success_count := 0
             , failure_count := 0
             , transitions :=
                 b.transitions ++ [(CircuitState.OPEN, CircuitState.HALF_OPEN)] } := by
    rw [checkAndTransition]
    simp only [hst, if_true, hlft, if_pos (And.intro htl hcd)]
  have hs : (checkAndTransition b now).state = CircuitState.HALF_OPEN := by
    rw [hb1]
  refine ⟨hs, by rw [hb1], by rw [hb1], ?_, ?_⟩ <;>
    · rw [call.eq_def]
      cases op <;> simp [hs]

/-- Witness for claim C4: breaker OPEN since time 30 with cooldown 60,
probed at time 100 with a succeeding operation. -/
theorem claim_C4_witness :
    (checkAndTransition ⟨3, 2, 60, CircuitState.OPEN, 3, 0, some 30,
        [(CircuitState.CLOSED, CircuitState.OPEN)]⟩ 100).state =
      CircuitState.HALF_OPEN ∧
    (checkAndTransition ⟨3, 2, 60, CircuitState.OPEN, 3, 0, some 30,
        [(CircuitState.CLOSED, CircuitState.OPEN)]⟩ 100).failure_count = 0 ∧
    (checkAndTransition ⟨3, 2, 60, CircuitState.OPEN, 3, 0, some 30,
        [(CircuitState.CLOSED, CircuitState.OPEN)]⟩ 100).success_count = 0 ∧
    (call ⟨3, 2, 60, CircuitState.OPEN, 3, 0, some 30,
        [(CircuitState.CLOSED, CircuitState.OPEN)]⟩ 100
        (Except.ok (7 : Nat) (ε := Unit)) 100).2.2 = true ∧
    (call ⟨3, 2, 60, CircuitState.OPEN, 3, 0, some 30,
        [(CircuitState.CLOSED, CircuitState.OPEN)]⟩ 100
        (Except.ok (7 : Nat) (ε := Unit)) 100).1 =
      onSuccess (checkAndTransition ⟨3, 2, 60, CircuitState.OPEN, 3, 0, some 30,
        [(CircuitState.CLOSED, CircuitState.OPEN)]⟩ 100) :=
  claim_C4_cooldown_half_open
    ⟨3, 2, 60, CircuitState.OPEN, 3, 0, some 30,
      [(CircuitState.CLOSED, CircuitState.OPEN)]⟩ 30 100 100
    (Except.ok 7) rfl rfl (by norm_num) (by norm_num)

/-- Claim C5 — a single counted failure while HALF_OPEN always moves
the breaker to OPEN (never CLOSED, never still HALF_OPEN) and sets
last_failure_time to that failure's time, restarting the cooldown
window from it. -/
theorem claim_C5_half_open_failure_reopens (b : CircuitBreaker) (now : ℚ)
    (h : b.state = CircuitState.HALF_OPEN) :
    (onFailure b now).state = CircuitState.OPEN ∧
    (onFailure b now).last_failure_time = some now := by
  rw [onFailure_half_open b now h]
  exact ⟨rfl, rfl⟩

/-- Witness for claim C5 on a concrete HALF_OPEN breaker. -/
theorem claim_C5_witness :
    (onFailure ⟨3, 2, 60, CircuitState.HALF_OPEN, 0, 1, some 30, []⟩ 95).state =
      CircuitState.OPEN ∧
    (onFailure ⟨3, 2, 60, CircuitState.HALF_OPEN, 0, 1, some 30, []⟩
        95).last_failure_time = some 95 :=
  claim_C5_half_open_failure_reopens
    ⟨3, 2, 60, CircuitState.HALF_OPEN, 0, 1, some 30, []⟩ 95 rfl

/-- Claim C6 — from HALF_OPEN with the success counter at 0, reaching
success_threshold consecutive counted successes transitions the breaker
to CLOSED and resets consecutive failures to 0. -/
theorem claim_C6_half_open_successes_close (b : CircuitBreaker)
    (h : b.state = CircuitState.HALF_OPEN)
    (hsc : b.success_count = 0)
    (hthr : 1 ≤ b.success_threshold) :
    (applySuccesses b b.success_threshold).state = CircuitState.CLOSED ∧
    (applySuccesses b b.success_threshold).failure_count = 0 := by
  obtain ⟨h1, h2, h3⟩ :=
    applySuccesses_half_open b (b.success_threshold - 1) h (by omega)
  have hS : b.success_threshold = (b.success_threshold - 1) + 1 := by omega
  have hcnt : (applySuccesses b (b.success_threshold - 1)).success_threshold ≤
      (applySuccesses b (b.success_threshold - 1)).success_count + 1 := by
    rw [h2, h3]; omega
  rw [hS]
  refine ⟨?_, ?_⟩ <;>
    simp [applySuccesses, onSuccess, h1, if_pos hcnt]

/-- Witness for claim C6: HALF_OPEN breaker with success_threshold 2
closing after 2 successes. -/
theorem claim_C6_witness :
    (applySuccesses ⟨3, 2, 60, CircuitState.HALF_OPEN, 0, 0, some 30, []⟩
        2).state = CircuitState.CLOSED ∧
    (applySuccesses ⟨3, 2, 60, CircuitState.HALF_OPEN, 0, 0, some 30, []⟩
        2).failure_count = 0 :=
  claim_C6_half_open_successes_close
    ⟨3, 2, 60, CircuitState.HALF_OPEN, 0, 0, some 30, []⟩ rfl rfl
    (by norm_num)

/-! ## Retry lemmas -/

/-- When every attempt raises a retryable exception, running the loop
with fuel remaining iterations from attempt att invokes the operation
exactly fuel times and ends by re-raising the exception of the last
attempt, unchanged. -/
lemma retryLoop_all_retryable_fail {α ε : Type} (ops : Nat → AttemptOutcome α ε)
    (es : Nat → ε) (jitter : Bool) (initial_delay max_delay exponential_base : ℚ)
    (rand : Nat → ℚ)
    (hops : ∀ i, ops i = AttemptOutcome.exc (es i) true) :
    ∀ (fuel att : Nat) (lastE : Option ε), 1 ≤ fuel →
      (retryLoop ops jitter initial_delay max_delay exponential_base rand
          att fuel lastE).1 = RetryResult.exc (es (att + fuel - 1)) ∧
      (retryLoop ops jitter initial_delay max_delay exponential_base rand
          att fuel lastE).2.1 = fuel := by
  intro fuel
  induction fuel with
  | zero => intro att lastE h; omega
  | succ fuel ih =>
      intro att lastE _
      rcases Nat.eq_zero_or_pos fuel with hf | hf
      · subst hf
        simp [retryLoop, hops att]
      · have hf0 : fuel ≠ 0 := by omega
        obtain ⟨h1, h2⟩ := ih (att + 1) (some (es att)) (by omega)
        have hidx : att + 1 + fuel - 1 = att + (fuel + 1) - 1 := by omega
        rw [hidx] at h1
        constructor <;>
          · simp only [retryLoop, hops att, if_true, reduceIte, hf0, if_false]
            simp [h1, h2]

/-- Claim C3 — for max_attempts = N >= 1 and an operation that always
raises a retryable exception, retry_with_backoff invokes the operation
exactly N times and re-raises the exception of the Nth (0-based index
N - 1) attempt unchanged. -/
theorem claim_C3_retry_exhaustion {α ε : Type} (ops : Nat → AttemptOutcome α ε)
    (es : Nat → ε) (N : Nat) (jitter : Bool)
    (initial_delay max_delay exponential_base : ℚ) (rand : Nat → ℚ)
    (hN : 1 ≤ N)
    (hops : ∀ i, ops i = AttemptOutcome.exc (es i) true) :
    (retry_with_backoff ops N jitter initial_delay max_delay exponential_base
        rand).1 = RetryResult.exc (es (N - 1)) ∧
    (retry_with_backoff ops N jitter initial_delay max_delay exponential_base
        rand).2.1 = N := by
  obtain ⟨h1, h2⟩ := retryLoop_all_retryable_fail ops es jitter initial_delay
    max_delay exponential_base rand hops N 0 none hN
  rw [retry_with_backoff]
  refine ⟨by rw [h1]; norm_num, h2⟩

/-- Witness for claim C3 with N = 3, the i-th attempt raising exception
i; the re-raised exception is that of attempt index 2. -/
theorem claim_C3_witness :
    (retry_with_backoff (α := Unit) (fun i => AttemptOutcome.exc i true) 3
        true 1 10 2 (fun _ => 0)).1 = RetryResult.exc 2 ∧
    (retry_with_backoff (α := Unit) (fun i => AttemptOutcome.exc i true) 3
        true 1 10 2 (fun _ => 0)).2.1 = 3 := by
  have h := claim_C3_retry_exhaustion (α := Unit)
    (fun i => AttemptOutcome.exc i true) (fun i => i) 3 true 1 10 2
    (fun _ => 0) (by norm_num) (fun i => rfl)
  exact h

/-- Claim C10 — retry_with_backoff called with max_attempts = 0 never
invokes the wrapped operation (0 invocations) and raises
RuntimeError ("Retry logic error"), modelled as RetryResult.logicError,
instead of returning a value. -/
theorem claim_C10_zero_attempts {α ε : Type} (ops : Nat → AttemptOutcome α ε)
    (jitter : Bool) (initial_delay max_delay exponential_base : ℚ)
    (rand : Nat → ℚ) :
    retry_with_backoff ops 0 jitter initial_delay max_delay exponential_base
      rand = (RetryResult.logicError, 0, []) :=
  rfl

/-- Claim C7 (evidence of the code bug) — with jitter enabled the slept
delay is delay * (0.5 + random.random() * 0.5), so for every base delay
b > 0 and random draw r in [0, 1) the jittered delay lies in
[0.5 * b, b): it never reaches the base delay, while the spec (and the
comment in retry.py line 87, "50% ~ 150%") promise a factor uniform in
(0.5, 1.5).  The closed conjunct evaluates a concrete run: defaults
initial_delay = 1, max_delay = 10, exponential_base = 2, r = 9/10 sleep
19/20 seconds, where a factor of 1.4 would have been possible under the
specified jitter. -/
theorem claim_C7_jitter_range (b r : ℚ) (hb : 0 < b) (h0 : 0 ≤ r)
    (h1 : r < 1) :
    b / 2 ≤ jitteredDelay true b r ∧ jitteredDelay true b r < b ∧
    (retry_with_backoff (α := Unit) (fun _ => AttemptOutcome.exc () true) 2
        true 1 10 2 (fun _ => 9 / 10)).2.2 = [19 / 20] := by
  refine ⟨?_, ?_, ?_⟩
  · rw [jitteredDelay]
    simp only [if_true, reduceIte]
    nlinarith
  · rw [jitteredDelay]
    simp only [if_true, reduceIte]
    nlinarith
  · simp only [retry_with_backoff, retryLoop, jitteredDelay, baseDelay]
    norm_num

/-- Witness for claim C7 at base delay 1 and r = 9/10. -/
theorem claim_C7_witness :
    (1 : ℚ) / 2 ≤ jitteredDelay true 1 (9 / 10) ∧
    jitteredDelay true 1 (9 / 10) < 1 ∧
    (retry_with_backoff (α := Unit) (fun _ => AttemptOutcome.exc () true) 2
        true 1 10 2 (fun _ => 9 / 10)).2.2 = [19 / 20] :=
  claim_C7_jitter_range 1 (9 / 10) (by norm_num) (by norm_num) (by norm_num)


/-! ## Credential cache lemmas -/

lemma strTruthy_some (t : String) (h : t ≠ "") :
    strTruthy (some t) = true := by
  simp [strTruthy, h]

lemma strTruthy_orElse_right (a b : Option String)
    (h : strTruthy b = true) : strTruthy (orElseStr a b) = true := by
  cases a with
  | none => simpa [orElseStr] using h
  | some s =>
      by_cases hs : s = ""
      · simpa [orElseStr, hs] using h
      · simpa [orElseStr, hs] using strTruthy_some s hs

lemma credsOk_tenant (cfg : StorageSettings) (h : credsOk cfg = true) :
    strTruthy (tenantIdOf cfg) = true := by
  simp [credsOk] at h
  exact h.2

/-- A successful authentication with an explicit expiry e replaces the
cached credential wholesale. -/
lemma authAttempt_success (cfg : StorageSettings) (s : CacheState)
    (now e : ℚ) (tok : String) (tenantF : Option String)
    (hcreds : credsOk cfg = true)
    (htok : tok ≠ "") :
    authAttempt cfg s now
        (AuthOutcome.response 200 (some tok) (some (some e)) tenantF) =
      ({ token := some tok, expires := some e
       , account := some ("AUTH_" ++
           (orElseStr tenantF (tenantIdOf cfg)).getD "")
       , storage_url := some cfg.nhn_storage_url },
       Except.ok tok, true) := by
  have htid := strTruthy_orElse_right tenantF _ (credsOk_tenant cfg hcreds)
  simp [authAttempt, authFinish, hcreds, htid, strTruthy_some tok htok]

/-- A successful authentication whose response omits the expiry field
records now + 86400 (24 hours) as the expiry. -/
lemma authAttempt_success_noExpiry (cfg : StorageSettings) (s : CacheState)
    (now : ℚ) (tok : String) (tenantF : Option String)
    (hcreds : credsOk cfg = true)
    (htok : tok ≠ "") :
    authAttempt cfg s now (AuthOutcome.response 200 (some tok) none tenantF) =
      ({ token := some tok, expires := some (now + 86400)
       , account := some ("AUTH_" ++
           (orElseStr tenantF (tenantIdOf cfg)).getD "")
       , storage_url := some cfg.nhn_storage_url },
       Except.ok tok, true) := by
  have htid := strTruthy_orElse_right tenantF _ (credsOk_tenant cfg hcreds)
  simp [authAttempt, authFinish, hcreds, htid, strTruthy_some tok htok]

/-- Callers whose double-check finds a usable token all return the
cached token and perform no authentication request. -/
lemma serveCallers_usable (cfg : StorageSettings) (now : ℚ)
    (out : AuthOutcome) :
    ∀ (n : Nat) (s : CacheState), usableB s now = true →
      serveCallers cfg now out n s =
        (s, List.replicate n (Except.ok (s.token.getD "")), 0) := by
  intro n
  induction n with
  | zero => intro s _; simp [serveCallers]
  | succ n ih =>
      intro s hs
      have hstep : getTokenLocked cfg s now out =
          (s, Except.ok (s.token.getD ""), false) := by
        simp [getTokenLocked, hs]
      simp [serveCallers, hstep, ih s hs, List.replicate_succ]

/-- Claim C1 — N >= 1 concurrent _get_auth_token callers, all arriving
while no usable cached token exists (they queue on the cache's lock and
run their locked sections in sequence), cause exactly one
authentication request — by the first caller in the queue — and all N
receive the same token, provided the endpoint answers 200 with a
non-empty token valid past the refresh margin. -/
theorem claim_C1_single_flight (cfg : StorageSettings) (s0 : CacheState)
    (now e : ℚ) (tok : String) (tenantF : Option String) (n : Nat)
    (hcreds : credsOk cfg = true)
    (h0 : usableB s0 now = false)
    (htok : tok ≠ "")
    (he : now < e - 300)
    (hn : 1 ≤ n) :
    (serveCallers cfg now
        (AuthOutcome.response 200 (some tok) (some (some e)) tenantF)
        n s0).2.1 = List.replicate n (Except.ok tok) ∧
    (serveCallers cfg now
        (AuthOutcome.response 200 (some tok) (some (some e)) tenantF)
        n s0).2.2 = 1 := by
  obtain ⟨m, rfl⟩ : ∃ m, n = m + 1 := ⟨n - 1, by omega⟩
  have hauth := authAttempt_success cfg s0 now e tok tenantF hcreds htok
  have hstep : getTokenLocked cfg s0 now
      (AuthOutcome.response 200 (some tok) (some (some e)) tenantF) =
      ({ token := some tok, expires := some e
       , account := some ("AUTH_" ++
           (orElseStr tenantF (tenantIdOf cfg)).getD "")
       , storage_url := some cfg.nhn_storage_url },
       Except.ok tok, true) := by
    simp [getTokenLocked, h0, hauth]
  have husable : usableB
      { token := some tok, expires := some e
      , account := some ("AUTH_" ++
          (orElseStr tenantF (tenantIdOf cfg)).getD "")
      , storage_url := some cfg.nhn_storage_url } now = true := by
    simp [usableB, strTruthy, htok, he]
  have hrest := serveCallers_usable cfg now
    (AuthOutcome.response 200 (some tok) (some (some e)) tenantF) m _ husable
  constructor <;> simp [serveCallers, hstep, hrest, List.replicate_succ]

/-- Witness for claim C1: three queued callers, stale cache s0Ex at time
2000, endpoint issuing token newtok valid until 90000. -/
theorem claim_C1_witness :
    (serveCallers cfgEx 2000
        (AuthOutcome.response 200 (some "newtok") (some (some 90000)) none)
        3 s0Ex).2.1 = List.replicate 3 (Except.ok "newtok") ∧
    (serveCallers cfgEx 2000
        (AuthOutcome.response 200 (some "newtok") (some (some 90000)) none)
        3 s0Ex).2.2 = 1 :=
  claim_C1_single_flight cfgEx s0Ex 2000 90000 "newtok" none 3
    (by decide) (by norm_num [usableB, s0Ex, strTruthy]) (by decide)
    (by norm_num) (by norm_num)

/-- Claim C9 — a successful authentication response that omits the
expiry field caches expires_at = issued_at + 24 hours (86400 seconds
after the utcnow() of the attempt) exactly: neither eternal nor already
expired. -/
theorem claim_C9_fallback_expiry (cfg : StorageSettings) (s : CacheState)
    (now : ℚ) (tok : String) (tenantF : Option String)
    (hcreds : credsOk cfg = true)
    (htok : tok ≠ "") :
    (authAttempt cfg s now
        (AuthOutcome.response 200 (some tok) none tenantF)).1.expires =
      some (now + 86400) ∧
    (authAttempt cfg s now
        (AuthOutcome.response 200 (some tok) none tenantF)).2.1 =
      Except.ok tok := by
  rw [authAttempt_success_noExpiry cfg s now tok tenantF hcreds htok]
  exact ⟨rfl, rfl⟩

/-- Witness for claim C9 at time 2000: the cached expiry is exactly
2000 + 86400. -/
theorem claim_C9_witness :
    (authAttempt cfgEx s0Ex 2000
        (AuthOutcome.response 200 (some "newtok") none none)).1.expires =
      some (2000 + 86400) ∧
    (authAttempt cfgEx s0Ex 2000
        (AuthOutcome.response 200 (some "newtok") none none)).2.1 =
      Except.ok "newtok" :=
  claim_C9_fallback_expiry cfgEx s0Ex 2000 "newtok" none
    (by decide) (by decide)

/-- Counterexample to claim C8 as stated: at the concrete stale cache
s0Ex (cached token oldtok, unusable at time 2000), a failed
authentication attempt — the endpoint answered 200 but its body had no
token id — does not leave the cached credential state as it was: the
cached token is overwritten with None (line 167 assigns self._token
before the raise at line 177). -/
theorem claim_C8_counterexample :
    usableB s0Ex 2000 = false ∧
    (authAttempt cfgEx s0Ex 2000
        (AuthOutcome.response 200 none none none)).2.1 =
      Except.error AuthError.tokenError ∧
    s0Ex.token = some "oldtok" ∧
    (authAttempt cfgEx s0Ex 2000
        (AuthOutcome.response 200 none none none)).1.token = none := by
  exact ⟨by norm_num [usableB, s0Ex, strTruthy], rfl, rfl, rfl⟩

/-- Claim C8 as amended — on authentication failures that occur before
token extraction (missing credentials, network error, unparseable
response body, non-200 status) the lock is released, the cached
credential state is left exactly as it was, and the exception
propagates to the single refreshing caller; but a 200 response whose
body omits the token id overwrites the cached token with None (leaving
expiry, account and storage URL intact) before its exception
propagates.  (Lock release on every path is the async-with of the
source and is implicit in the model.) -/
theorem claim_C8_prefail_cache_unchanged (cfg : StorageSettings)
    (s : CacheState) (now : ℚ) (st : Nat)
    (tokF tenF : Option String) (expQ : Option (Option ℚ))
    (hst : st ≠ 200) :
    ((authAttempt cfg s now AuthOutcome.netError).1 = s ∧
      ∃ err, (authAttempt cfg s now AuthOutcome.netError).2.1 =
        Except.error err) ∧
    ((authAttempt cfg s now (AuthOutcome.parseFailure st)).1 = s ∧
      ∃ err, (authAttempt cfg s now (AuthOutcome.parseFailure st)).2.1 =
        Except.error err) ∧
    ((authAttempt cfg s now (AuthOutcome.response st tokF expQ tenF)).1 = s ∧
      ∃ err, (authAttempt cfg s now
          (AuthOutcome.response st tokF expQ tenF)).2.1 =
        Except.error err) ∧
    (credsOk cfg = true →
     (authAttempt cfg s now (AuthOutcome.response 200 none expQ tenF)).1 =
        { s with token := none } ∧
     (authAttempt cfg s now (AuthOutcome.response 200 none expQ tenF)).2.1 =
        Except.error AuthError.tokenError) := by
  by_cases hc : credsOk cfg = true
  · refine ⟨⟨?_, AuthError.networkError, ?_⟩,
            ⟨?_, AuthError.parseError, ?_⟩,
            ⟨?_, AuthError.authFailed, ?_⟩,
            fun _ => ⟨?_, ?_⟩⟩ <;>
      simp [authAttempt, hc, hst, strTruthy]
  · have hcf : credsOk cfg = false := by
      revert hc
      cases credsOk cfg <;> simp
    refine ⟨⟨?_, AuthError.configError, ?_⟩,
            ⟨?_, AuthError.configError, ?_⟩,
            ⟨?_, AuthError.configError, ?_⟩,
            fun h => absurd h hc⟩ <;>
      simp [authAttempt, hcf]

/-- Witness for the amended claim C8 at the concrete configuration
cfgEx, stale state s0Ex, and a 401 response. -/
theorem claim_C8_witness :
    ((authAttempt cfgEx s0Ex 2000 AuthOutcome.netError).1 = s0Ex ∧
      ∃ err, (authAttempt cfgEx s0Ex 2000 AuthOutcome.netError).2.1 =
        Except.error err) ∧
    ((authAttempt cfgEx s0Ex 2000 (AuthOutcome.parseFailure 401)).1 = s0Ex ∧
      ∃ err, (authAttempt cfgEx s0Ex 2000 (AuthOutcome.parseFailure 401)).2.1 =
        Except.error err) ∧
    ((authAttempt cfgEx s0Ex 2000
        (AuthOutcome.response 401 (some "x") none none)).1 = s0Ex ∧
      ∃ err, (authAttempt cfgEx s0Ex 2000
          (AuthOutcome.response 401 (some "x") none none)).2.1 =
        Except.error err) ∧
    (credsOk cfgEx = true →
     (authAttempt cfgEx s0Ex 2000 (AuthOutcome.response 200 none none none)).1 =
        { s0Ex with token := none } ∧
     (authAttempt cfgEx s0Ex 2000
        (AuthOutcome.response 200 none none none)).2.1 =
        Except.error AuthError.tokenError) :=
  claim_C8_prefail_cache_unchanged cfgEx s0Ex 2000 401 (some "x") none none
    (by norm_num)

end PhotoApi
